import Mathlib

set_option linter.unusedVariables false

/-!
Verification of the authenticated streaming gateway of a Trello MCP server.

The definitions below are a shallow embedding of the repository's Python
sources:

* `server/utils/auth.py` — the `Role` enum, the per-request role binding
  (a `ContextVar`, modelled as an explicit `Option Role` value passed to
  every tool handler) and the `require_write_access` decorator (modelled as
  an explicit wrapper combinator).
* `main.py` — the `APIKeyMiddleware` (credential parsing and per-request
  role resolution), the `NoBufferingMiddleware` (anti-buffering header
  injection for event-stream responses), the `/health` handler and the
  route table.
* `server/tools/{card,board,attachment,custom_field}.py` and
  `server/services/*` — the tool handlers and the thin service layer.

The remote Trello HTTP client (`server/utils/trello_api.py`, not part of
the sources; the spec classifies it as an external collaborator that is a
thin stateless HTTP call) is modelled as an oracle `Remote` together with
an explicit trace of the `ApiCall`s issued, so that "no remote call is
issued" is a provable statement about a handler.

Python strings are modelled as Lean `String`; the Python string
operations used by the code (`split(",")`, `strip()`, `startswith`,
slicing, `in` on substrings, `lower()`) are defined structurally on the
underlying character lists so that every definition evaluates by kernel
reduction.
-/

namespace Trello

/-- Python `str.split(sep)` for a one-character separator, defined on the
character list: splits at every occurrence, keeping empty pieces, and
returns `[[]]` on the empty string, exactly like Python. -/
def splitOnChar (sep : Char) : List Char → List (List Char)
  | [] => [[]]
  | c :: cs =>
    let r := splitOnChar sep cs
    if c = sep then [] :: r
    else
      match r with
      | [] => [[c]]
      | h :: t => (c :: h) :: t

/-- Python `str.strip()`: drop leading and trailing whitespace. -/
def stripChars (l : List Char) : List Char :=
  ((l.dropWhile Char.isWhitespace).reverse.dropWhile Char.isWhitespace).reverse

/-- Python `str.strip()` on `String`. -/
def pyStrip (s : String) : String := ⟨stripChars s.data⟩

/-- Python `needle in hay` (substring test) on character lists. -/
def containsSub (needle : List Char) : List Char → Bool
  | [] => needle.isPrefixOf []
  | c :: t => needle.isPrefixOf (c :: t) || containsSub needle t

/-- Python `s.startswith(pre)`. -/
def strStartsWith (s pre : String) : Bool := pre.data.isPrefixOf s.data

/-- Python `s[n:]`. -/
def strDrop (s : String) (n : Nat) : String := ⟨s.data.drop n⟩

/-- Python `s.lower()` (ASCII, as applied to header names). -/
def lowerStr (s : String) : String := ⟨s.data.map Char.toLower⟩

/-- `Role` enum from `server/utils/auth.py`. -/
inductive Role where
  | READ_ONLY
  | READ_WRITE
deriving DecidableEq, Repr

/-- The `.value` of each enum member in `server/utils/auth.py`. -/
def Role.value : Role → String
  | Role.READ_ONLY => "read_only"
  | Role.READ_WRITE => "read_write"

/-- The interpolation `role.value if role else 'no'` in the
`require_write_access` error message. -/
def roleValueOrNo : Option Role → String
  | some r => r.value
  | none => "no"

/-- Credential parsing from `APIKeyMiddleware.__init__` in `main.py`:
`[k.strip() for k in s.split(",") if k.strip()]`. -/
def parseKeys (s : String) : List String :=
  ((splitOnChar ',' s.data).map (fun k => (⟨stripChars k⟩ : String))).filter
    (fun k => k ≠ "")

/-- State of `APIKeyMiddleware`: the two parsed credential lists. -/
structure APIKeyMiddleware where
  ro_keys : List String
  rw_keys : List String
deriving DecidableEq, Repr

/-- `APIKeyMiddleware.__init__` from `main.py`: parse
`MCP_API_KEY_READ_ONLY` and `MCP_API_KEY_READ_WRITE`; the legacy
`MCP_API_KEY` value is appended to the read-write list only when both
dedicated variables are the empty string (Python truthiness of
`not (ro_keys_str or rw_keys_str)`). -/
def APIKeyMiddleware.init (ro_str rw_str legacy_env : String) : APIKeyMiddleware :=
  let legacy_str := if ro_str = "" ∧ rw_str = "" then legacy_env else ""
  { ro_keys := parseKeys ro_str
    rw_keys := parseKeys rw_str ++ (if legacy_str ≠ "" then parseKeys legacy_str else []) }

/-- An inbound HTTP request as seen by the ASGI middleware: `scope["path"]`,
`scope["method"]`, and `scope["headers"]` (names already lowercased by the
server, per the ASGI spec). -/
structure HttpRequest where
  path : String
  method : String
  headers : List (String × String)
deriving DecidableEq, Repr

/-- `dict(scope["headers"]).get(name, "")`: the last binding of a repeated
name wins, absent names give the empty string. -/
def headerLookup (headers : List (String × String)) (name : String) : String :=
  match headers.reverse.find? (fun p => p.1 = name) with
  | some p => p.2
  | none => ""

/-- Token extraction from `APIKeyMiddleware.__call__`:
`auth_header[7:] if auth_header.startswith("Bearer ") else ""`. -/
def extractToken (auth_header : String) : String :=
  if strStartsWith auth_header "Bearer " then strDrop auth_header 7 else ""

/-- The structured 401 payload from `main.py`:
`JSONResponse({"error": "Unauthorized", "message": "Invalid or missing API Key"}, status_code=401)`. -/
structure JsonErrorResponse where
  status : Nat
  error : String
  message : String
deriving DecidableEq, Repr

def unauthorizedResponse : JsonErrorResponse :=
  ⟨401, "Unauthorized", "Invalid or missing API Key"⟩

/-- Role classification from `APIKeyMiddleware.__call__`:
`role = None; if token: if token in self.rw_keys: ... elif token in self.ro_keys: ...`. -/
def resolveRole (m : APIKeyMiddleware) (token : String) : Option Role :=
  if token ≠ "" then
    if token ∈ m.rw_keys then some Role.READ_WRITE
    else if token ∈ m.ro_keys then some Role.READ_ONLY
    else none
  else none

/-- Outcome of the authentication middleware on one request: either the
inner ASGI app is invoked (with the role binding that was published into
the `api_key_role` context variable, `none` when the request bypassed
authentication), or a 401 response is sent and the inner app is never
invoked. -/
inductive AuthOutcome where
  | forwarded (roleBinding : Option Role)
  | rejected (resp : JsonErrorResponse)
deriving DecidableEq, Repr

/-- `APIKeyMiddleware.__call__` from `main.py` on an HTTP-scope request:
health-check and CORS pre-flight bypass; open-access fallback when both
parsed credential lists are empty; otherwise resolve a role from the
bearer token or reject with the structured 401. -/
def APIKeyMiddleware.call (m : APIKeyMiddleware) (req : HttpRequest) : AuthOutcome :=
  if req.path = "/health" ∨ req.method = "OPTIONS" then
    AuthOutcome.forwarded none
  else if m.ro_keys = [] ∧ m.rw_keys = [] then
    AuthOutcome.forwarded (some Role.READ_WRITE)
  else
    match resolveRole m (extractToken (headerLookup req.headers "authorization")) with
    | none => AuthOutcome.rejected unauthorizedResponse
    | some r => AuthOutcome.forwarded (some r)

theorem isPrefixOf_append_self (l₁ l₂ : List Char) :
    List.isPrefixOf l₁ (l₁ ++ l₂) = true := by
  induction l₁ with
  | nil => simp [List.isPrefixOf]
  | cons a as ih => simp [List.isPrefixOf, ih]

theorem strStartsWith_bearer (t : String) :
    strStartsWith ("Bearer " ++ t) "Bearer " = true := by
  show List.isPrefixOf "Bearer ".data ("Bearer " ++ t).data = true
  rw [String.data_append]
  exact isPrefixOf_append_self _ _

theorem extractToken_bearer (t : String) : extractToken ("Bearer " ++ t) = t := by
  unfold extractToken
  rw [strStartsWith_bearer]
  show strDrop ("Bearer " ++ t) 7 = t
  unfold strDrop
  rw [String.data_append]
  show (⟨List.drop 7 (['B', 'e', 'a', 'r', 'e', 'r', ' '] ++ t.data)⟩ : String) = t
  rw [show (7 : Nat) = (['B', 'e', 'a', 'r', 'e', 'r', ' '] : List Char).length from rfl,
    List.drop_left]

theorem mem_parseKeys_ne_empty {s k : String} (h : k ∈ parseKeys s) : k ≠ "" := by
  unfold parseKeys at h
  have := List.of_mem_filter h
  simpa using this

theorem mem_ite_parseKeys_ne_empty {c : Prop} [Decidable c] {s t : String}
    (h : t ∈ (if c then parseKeys s else [])) : t ≠ "" := by
  split at h
  · exact mem_parseKeys_ne_empty h
  · exact absurd h (List.not_mem_nil t)

theorem mem_init_rw_keys_ne_empty {ro_str rw_str legacy_env t : String}
    (h : t ∈ (APIKeyMiddleware.init ro_str rw_str legacy_env).rw_keys) : t ≠ "" := by
  simp only [APIKeyMiddleware.init] at h
  rcases List.mem_append.mp h with h1 | h2
  · exact mem_parseKeys_ne_empty h1
  · exact mem_ite_parseKeys_ne_empty h2

/-! ### Stream-integrity middleware (`NoBufferingMiddleware` in `main.py`) -/

/-- The five anti-buffering headers appended by
`NoBufferingMiddleware.send_wrapper`, in source order. -/
def nbHeaders : List (String × String) :=
  [("x-accel-buffering", "no"),
   ("cache-control", "no-cache"),
   ("connection", "keep-alive"),
   ("content-encoding", "identity"),
   ("x-content-type-options", "nosniff")]

/-- The names of the five anti-buffering headers. -/
def nbHeaderNames : List String :=
  ["x-accel-buffering", "cache-control", "connection", "content-encoding",
   "x-content-type-options"]

/-- The SSE detection loop of `send_wrapper`: some header has
`name.lower() == b"content-type"` and `b"text/event-stream" in value`. -/
def isSSE (headers : List (String × String)) : Bool :=
  headers.any (fun p =>
    lowerStr p.1 = "content-type" && containsSub "text/event-stream".data p.2.data)

/-- Effect of `NoBufferingMiddleware.send_wrapper` on the header list of an
`http.response.start` message: when the response declares an event-stream
content type, the five anti-buffering headers are appended (one
`headers.append` each); otherwise the list is left untouched. -/
def noBufferingStart (headers : List (String × String)) : List (String × String) :=
  if isSSE headers then headers ++ nbHeaders else headers

/-- Occurrences of a header name in a header list. -/
def countName (headers : List (String × String)) (n : String) : Nat :=
  (headers.filter (fun p => p.1 = n)).length

/-! ### Route table and health-check handler (`main.py`) -/

/-- A response as produced by a routed Starlette endpoint. -/
structure HttpResponse where
  status : Nat
  body : String
deriving DecidableEq, Repr

/-- `health_check` from `main.py`:
`PlainTextResponse(f"OK. Path: {request.url.path}")` (status 200). -/
def health_check (req : HttpRequest) : HttpResponse :=
  ⟨200, "OK. Path: " ++ req.path⟩

/-- `Route("/health", endpoint=health_check)` in `main.py` declares no
`methods` list. Modelled from Starlette's documented `Route` semantics
(external library): a function endpoint without `methods` defaults to
`{"GET"}` with `"HEAD"` added automatically, and any other method on a
matching path receives a plain 405 "Method Not Allowed" response. -/
def healthRouteMethods : List String := ["GET", "HEAD"]

/-- The route table of the Starlette app in `main.py`, restricted to the
health route; every other path falls through to the mounted MCP
stream handler, which is an external collaborator and is therefore a
parameter `inner`. -/
def routerDispatch (inner : HttpRequest → HttpResponse) (req : HttpRequest) :
    HttpResponse :=
  if req.path = "/health" then
    if req.method ∈ healthRouteMethods then health_check req
    else ⟨405, "Method Not Allowed"⟩
  else inner req

/-- Result of the full gateway on one request: either a routed response
(the inner application ran), or the 401 rejection from the
authentication middleware (the inner application never ran). -/
inductive GatewayResult where
  | response (r : HttpResponse)
  | unauthorized (e : JsonErrorResponse)
deriving DecidableEq, Repr

/-- The middleware pipeline of `main.py` applied to one request:
`APIKeyMiddleware` either rejects with the structured 401 (and the route
table is never consulted) or forwards to the routed application. -/
def gateway (m : APIKeyMiddleware) (inner : HttpRequest → HttpResponse)
    (req : HttpRequest) : GatewayResult :=
  match m.call req with
  | AuthOutcome.forwarded _ => GatewayResult.response (routerDispatch inner req)
  | AuthOutcome.rejected e => GatewayResult.unauthorized e

/-! ### Tool layer

Each tool handler is a Lean function of the request's role binding (the
value `api_key_role.get(None)` would return, i.e. `Option Role`), the
remote-API oracle, and the tool's own arguments. It returns the handler's
result (or the `PermissionError` raised by the `require_write_access`
decorator) together with the trace of remote-API calls issued. The
pydantic model mapping (`TrelloCard(**response)` and friends) is a pure
data re-shaping of the opaque remote response and is modelled as the
identity on an abstract response value. -/

/-- A Python value as used in request payloads: a string or a dict. -/
inductive PyVal where
  | str (s : String)
  | dict (d : List (String × PyVal))

/-- One HTTP call issued to the remote Trello API by the client wrapper
(`server/utils/trello_api.py`). -/
structure ApiCall where
  method : String
  path : String
  data : Option PyVal
  params : List (String × String)

/-- The remote Trello API as an oracle: for each call, the (opaque,
already JSON-decoded) response. -/
abbrev Remote := ApiCall → String

/-- Modelled from the spec: the Trello HTTP client
(`server/utils/trello_api.py`, not among the sources; the spec treats each
domain tool as "a thin, stateless HTTP call-and-map to a remote resource
API"). `GET` issues one GET request with query params and returns the
remote response. -/
def TrelloClient.GET (remote : Remote) (path : String)
    (params : List (String × String)) : String × List ApiCall :=
  let c : ApiCall := ⟨"GET", path, none, params⟩
  (remote c, [c])

/-- Modelled from the spec: `POST` issues one POST request with a JSON
body and returns the remote response. -/
def TrelloClient.POST (remote : Remote) (path : String) (data : PyVal) :
    String × List ApiCall :=
  let c : ApiCall := ⟨"POST", path, some data, []⟩
  (remote c, [c])

/-- Modelled from the spec: `PUT` issues one PUT request with a JSON body
and returns the remote response. -/
def TrelloClient.PUT (remote : Remote) (path : String) (data : PyVal) :
    String × List ApiCall :=
  let c : ApiCall := ⟨"PUT", path, some data, []⟩
  (remote c, [c])

/-- Modelled from the spec: `DELETE` issues one DELETE request and returns
the remote response. -/
def TrelloClient.DELETE (remote : Remote) (path : String) :
    String × List ApiCall :=
  let c : ApiCall := ⟨"DELETE", path, none, []⟩
  (remote c, [c])

/-- The error raised by a tool handler: the `PermissionError` of
`require_write_access`, carrying the tool name and the
`role.value if role else 'no'` text interpolated into its message. -/
inductive ToolError where
  | PermissionDenied (toolName : String) (roleDesc : String)
deriving DecidableEq, Repr

/-- `require_write_access` from `server/utils/auth.py`, as an explicit
wrapper: read the current request's role binding; unless it is
`Role.READ_WRITE`, raise `PermissionError` naming the tool and the actual
role without running the body (so no remote call is issued); otherwise run
the wrapped body. -/
def require_write_access {α β : Type} (toolName : String)
    (f : α → β × List ApiCall) (role : Option Role) (a : α) :
    Except ToolError β × List ApiCall :=
  if role = some Role.READ_WRITE then
    (Except.ok (f a).1, (f a).2)
  else
    (Except.error (ToolError.PermissionDenied toolName (roleValueOrNo role)), [])

/-! ### Service layer (`server/services/*.py`) -/

/-- `CardService.get_card`: `GET /cards/{card_id}`. -/
def CardService.get_card (remote : Remote) (card_id : String) :
    String × List ApiCall :=
  TrelloClient.GET remote ("/cards/" ++ card_id) []

/-- `CardService.get_cards`: `GET /lists/{list_id}/cards`. -/
def CardService.get_cards (remote : Remote) (list_id : String) :
    String × List ApiCall :=
  TrelloClient.GET remote ("/lists/" ++ list_id ++ "/cards") []

/-- `CardService.create_card`: `POST /cards` with the dumped payload. -/
def CardService.create_card (remote : Remote) (data : List (String × PyVal)) :
    String × List ApiCall :=
  TrelloClient.POST remote "/cards" (PyVal.dict data)

/-- `CardService.update_card`: `PUT /cards/{card_id}` with the dumped payload. -/
def CardService.update_card (remote : Remote) (card_id : String)
    (data : List (String × PyVal)) : String × List ApiCall :=
  TrelloClient.PUT remote ("/cards/" ++ card_id) (PyVal.dict data)

/-- `CardService.delete_card`: `DELETE /cards/{card_id}`. -/
def CardService.delete_card (remote : Remote) (card_id : String) :
    String × List ApiCall :=
  TrelloClient.DELETE remote ("/cards/" ++ card_id)

/-- `CardService.get_comments`: `GET /cards/{card_id}/actions` with
`params={"filter": "commentCard"}`. -/
def CardService.get_comments (remote : Remote) (card_id : String) :
    String × List ApiCall :=
  TrelloClient.GET remote ("/cards/" ++ card_id ++ "/actions")
    [("filter", "commentCard")]

/-- `CardService.add_comment`: `POST /cards/{card_id}/actions/comments`
with `data={"text": text}`. -/
def CardService.add_comment (remote : Remote) (card_id text : String) :
    String × List ApiCall :=
  TrelloClient.POST remote ("/cards/" ++ card_id ++ "/actions/comments")
    (PyVal.dict [("text", PyVal.str text)])

/-- `CardService.add_member`: `POST /cards/{card_id}/idMembers` with
`data={"value": member_id}`. -/
def CardService.add_member (remote : Remote) (card_id member_id : String) :
    String × List ApiCall :=
  TrelloClient.POST remote ("/cards/" ++ card_id ++ "/idMembers")
    (PyVal.dict [("value", PyVal.str member_id)])

/-- `CardService.remove_member`: `DELETE /cards/{card_id}/idMembers/{member_id}`. -/
def CardService.remove_member (remote : Remote) (card_id member_id : String) :
    String × List ApiCall :=
  TrelloClient.DELETE remote ("/cards/" ++ card_id ++ "/idMembers/" ++ member_id)

/-- `BoardService.get_board`: `GET /boards/{board_id}`. -/
def BoardService.get_board (remote : Remote) (board_id : String) :
    String × List ApiCall :=
  TrelloClient.GET remote ("/boards/" ++ board_id) []

/-- `BoardService.get_boards` with its default `member_id="me"`:
`GET /members/me/boards` with `params={"filter": filter}`. -/
def BoardService.get_boards (remote : Remote) (filter : String) :
    String × List ApiCall :=
  TrelloClient.GET remote "/members/me/boards" [("filter", filter)]

/-- `BoardService.get_board_labels`: `GET /boards/{board_id}/labels`. -/
def BoardService.get_board_labels (remote : Remote) (board_id : String) :
    String × List ApiCall :=
  TrelloClient.GET remote ("/boards/" ++ board_id ++ "/labels") []

/-- `BoardService.get_board_members`: `GET /boards/{board_id}/members`. -/
def BoardService.get_board_members (remote : Remote) (board_id : String) :
    String × List ApiCall :=
  TrelloClient.GET remote ("/boards/" ++ board_id ++ "/members") []

/-- `BoardService.create_board_label`: `POST /boards/{board_id}/labels`
with the dumped payload. -/
def BoardService.create_board_label (remote : Remote) (board_id : String)
    (data : List (String × PyVal)) : String × List ApiCall :=
  TrelloClient.POST remote ("/boards/" ++ board_id ++ "/labels") (PyVal.dict data)

/-- `BoardService.create_board`: `POST /boards` with the dumped payload
(`{"name": name, **kwargs}`). -/
def BoardService.create_board (remote : Remote) (data : List (String × PyVal)) :
    String × List ApiCall :=
  TrelloClient.POST remote "/boards" (PyVal.dict data)

/-- `BoardService.update_board`: `PUT /boards/{board_id}` with the dumped
payload. -/
def BoardService.update_board (remote : Remote) (board_id : String)
    (data : List (String × PyVal)) : String × List ApiCall :=
  TrelloClient.PUT remote ("/boards/" ++ board_id) (PyVal.dict data)

/-- `AttachmentService.get_attachments`: `GET /cards/{card_id}/attachments`. -/
def AttachmentService.get_attachments (remote : Remote) (card_id : String) :
    String × List ApiCall :=
  TrelloClient.GET remote ("/cards/" ++ card_id ++ "/attachments") []

/-- `AttachmentService.add_attachment`: `POST /cards/{card_id}/attachments`
with `payload={"url": url}`, adding `"name"` only when `name` is truthy
(Python: `if name:` — both `None` and the empty string are skipped). -/
def AttachmentService.add_attachment (remote : Remote) (card_id url : String)
    (name : Option String) : String × List ApiCall :=
  let payload :=
    match name with
    | some n => if n = "" then [("url", PyVal.str url)]
                else [("url", PyVal.str url), ("name", PyVal.str n)]
    | none => [("url", PyVal.str url)]
  TrelloClient.POST remote ("/cards/" ++ card_id ++ "/attachments")
    (PyVal.dict payload)

/-- `AttachmentService.delete_attachment`:
`DELETE /cards/{card_id}/attachments/{attachment_id}`, then `return True`. -/
def AttachmentService.delete_attachment (remote : Remote)
    (card_id attachment_id : String) : Bool × List ApiCall :=
  let r := TrelloClient.DELETE remote
    ("/cards/" ++ card_id ++ "/attachments/" ++ attachment_id)
  (true, r.2)

/-- `CustomFieldService.get_board_custom_fields`:
`GET /boards/{board_id}/customFields`. -/
def CustomFieldService.get_board_custom_fields (remote : Remote)
    (board_id : String) : String × List ApiCall :=
  TrelloClient.GET remote ("/boards/" ++ board_id ++ "/customFields") []

/-- `CustomFieldService.get_card_custom_fields`:
`GET /cards/{card_id}/customFieldItems`. -/
def CustomFieldService.get_card_custom_fields (remote : Remote)
    (card_id : String) : String × List ApiCall :=
  TrelloClient.GET remote ("/cards/" ++ card_id ++ "/customFieldItems") []

/-- `CustomFieldService.update_card_custom_field`:
`PUT /cards/{card_id}/customField/{custom_field_id}/item`. The tool passes
`value` as a dict; the service wraps it as `{"value": value}` unless the
caller already passed a dict containing the key `"value"`. -/
def CustomFieldService.update_card_custom_field (remote : Remote)
    (card_id custom_field_id : String) (value : List (String × PyVal)) :
    String × List ApiCall :=
  let payload :=
    if (value.find? (fun p => p.1 = "value")).isSome then PyVal.dict value
    else PyVal.dict [("value", PyVal.dict value)]
  TrelloClient.PUT remote
    ("/cards/" ++ card_id ++ "/customField/" ++ custom_field_id ++ "/item")
    payload

/-! ### Tool handlers (`server/tools/*.py`)

Every handler takes the request's role binding first; the handlers whose
source carries `@require_write_access` go through the wrapper, all others
ignore the binding entirely (their bodies never consult `api_key_role`).
The `try/except` blocks of the handlers only log and re-raise, so with a
total remote oracle the success path is the whole behaviour. -/

/-- `get_card` (read, unguarded). -/
def get_card (role : Option Role) (remote : Remote) (card_id : String) :
    Except ToolError String × List ApiCall :=
  let r := CardService.get_card remote card_id
  (Except.ok r.1, r.2)

/-- `get_cards` (read, unguarded). -/
def get_cards (role : Option Role) (remote : Remote) (list_id : String) :
    Except ToolError String × List ApiCall :=
  let r := CardService.get_cards remote list_id
  (Except.ok r.1, r.2)

/-- `create_card` (mutating, `@require_write_access`). -/
def create_card (role : Option Role) (remote : Remote)
    (payload : List (String × PyVal)) : Except ToolError String × List ApiCall :=
  require_write_access "create_card" (fun p => CardService.create_card remote p)
    role payload

/-- `update_card` (mutating, `@require_write_access`). -/
def update_card (role : Option Role) (remote : Remote) (card_id : String)
    (payload : List (String × PyVal)) : Except ToolError String × List ApiCall :=
  require_write_access "update_card"
    (fun a => CardService.update_card remote a.1 a.2) role (card_id, payload)

/-- `delete_card` (mutating, `@require_write_access`). -/
def delete_card (role : Option Role) (remote : Remote) (card_id : String) :
    Except ToolError String × List ApiCall :=
  require_write_access "delete_card" (fun c => CardService.delete_card remote c)
    role card_id

/-- `get_card_comments` (read, unguarded). -/
def get_card_comments (role : Option Role) (remote : Remote) (card_id : String) :
    Except ToolError String × List ApiCall :=
  let r := CardService.get_comments remote card_id
  (Except.ok r.1, r.2)

/-- `add_comment_to_card` (mutating, `@require_write_access`). -/
def add_comment_to_card (role : Option Role) (remote : Remote)
    (card_id text : String) : Except ToolError String × List ApiCall :=
  require_write_access "add_comment_to_card"
    (fun a => CardService.add_comment remote a.1 a.2) role (card_id, text)

/-- `add_member_to_card` (mutating, `@require_write_access`). -/
def add_member_to_card (role : Option Role) (remote : Remote)
    (card_id member_id : String) : Except ToolError String × List ApiCall :=
  require_write_access "add_member_to_card"
    (fun a => CardService.add_member remote a.1 a.2) role (card_id, member_id)

/-- `remove_member_from_card` (mutating, `@require_write_access`). -/
def remove_member_from_card (role : Option Role) (remote : Remote)
    (card_id member_id : String) : Except ToolError String × List ApiCall :=
  require_write_access "remove_member_from_card"
    (fun a => CardService.remove_member remote a.1 a.2) role (card_id, member_id)

/-- `get_board` (read, unguarded). -/
def get_board (role : Option Role) (remote : Remote) (board_id : String) :
    Except ToolError String × List ApiCall :=
  let r := BoardService.get_board remote board_id
  (Except.ok r.1, r.2)

/-- `get_boards` (read, unguarded). -/
def get_boards (role : Option Role) (remote : Remote) (filter : String) :
    Except ToolError String × List ApiCall :=
  let r := BoardService.get_boards remote filter
  (Except.ok r.1, r.2)

/-- `get_board_labels` (read, unguarded). -/
def get_board_labels (role : Option Role) (remote : Remote) (board_id : String) :
    Except ToolError String × List ApiCall :=
  let r := BoardService.get_board_labels remote board_id
  (Except.ok r.1, r.2)

/-- `get_board_members` (read, unguarded). -/
def get_board_members (role : Option Role) (remote : Remote) (board_id : String) :
    Except ToolError String × List ApiCall :=
  let r := BoardService.get_board_members remote board_id
  (Except.ok r.1, r.2)

/-- `create_board_label` (mutating, `@require_write_access`). -/
def create_board_label (role : Option Role) (remote : Remote) (board_id : String)
    (payload : List (String × PyVal)) : Except ToolError String × List ApiCall :=
  require_write_access "create_board_label"
    (fun a => BoardService.create_board_label remote a.1 a.2) role
    (board_id, payload)

/-- `create_board` (mutating, `@require_write_access`). -/
def create_board (role : Option Role) (remote : Remote)
    (payload : List (String × PyVal)) : Except ToolError String × List ApiCall :=
  require_write_access "create_board"
    (fun p => BoardService.create_board remote p) role payload

/-- `update_board` (mutating, `@require_write_access`). -/
def update_board (role : Option Role) (remote : Remote) (board_id : String)
    (payload : List (String × PyVal)) : Except ToolError String × List ApiCall :=
  require_write_access "update_board"
    (fun a => BoardService.update_board remote a.1 a.2) role (board_id, payload)

/-- `get_card_attachments` (read, unguarded). -/
def get_card_attachments (role : Option Role) (remote : Remote)
    (card_id : String) : Except ToolError String × List ApiCall :=
  let r := AttachmentService.get_attachments remote card_id
  (Except.ok r.1, r.2)

/-- `add_attachment_to_card`. Mutating, but the source carries NO
`@require_write_access` decorator: the body runs whatever the role
binding holds. -/
def add_attachment_to_card (role : Option Role) (remote : Remote)
    (card_id url : String) (name : Option String) :
    Except ToolError String × List ApiCall :=
  let r := AttachmentService.add_attachment remote card_id url name
  (Except.ok r.1, r.2)

/-- `delete_attachment_from_card`. Mutating, but the source carries NO
`@require_write_access` decorator: the body runs whatever the role
binding holds, and the handler returns `True`. -/
def delete_attachment_from_card (role : Option Role) (remote : Remote)
    (card_id attachment_id : String) : Except ToolError Bool × List ApiCall :=
  let r := AttachmentService.delete_attachment remote card_id attachment_id
  (Except.ok true, r.2)

/-- `get_board_custom_field_definitions` (read, unguarded). -/
def get_board_custom_field_definitions (role : Option Role) (remote : Remote)
    (board_id : String) : Except ToolError String × List ApiCall :=
  let r := CustomFieldService.get_board_custom_fields remote board_id
  (Except.ok r.1, r.2)

/-- `get_card_custom_field_items` (read, unguarded). -/
def get_card_custom_field_items (role : Option Role) (remote : Remote)
    (card_id : String) : Except ToolError String × List ApiCall :=
  let r := CustomFieldService.get_card_custom_fields remote card_id
  (Except.ok r.1, r.2)

/-- `update_card_custom_field_value`. Mutating, but the source carries NO
`@require_write_access` decorator: the body runs whatever the role
binding holds. -/
def update_card_custom_field_value (role : Option Role) (remote : Remote)
    (card_id custom_field_id : String) (value : List (String × PyVal)) :
    Except ToolError String × List ApiCall :=
  let r := CustomFieldService.update_card_custom_field remote card_id
    custom_field_id value
  (Except.ok r.1, r.2)

/-! ### Claim theorems -/

/-- C2: every token `t` in the parsed read-write credential list of the
middleware (whatever the read-only list, including when `t` is also a
member of it) makes a request bearing `Authorization: Bearer t` on an
authenticated path resolve to `READ_WRITE`: read-write membership is
checked before read-only membership. -/
theorem c2_rw_token_resolves_read_write (ro_str rw_str legacy_env : String)
    (req : HttpRequest) (t : String)
    (hmem : t ∈ (APIKeyMiddleware.init ro_str rw_str legacy_env).rw_keys)
    (hp : req.path ≠ "/health") (hm : req.method ≠ "OPTIONS")
    (hauth : headerLookup req.headers "authorization" = "Bearer " ++ t) :
    (APIKeyMiddleware.init ro_str rw_str legacy_env).call req
      = AuthOutcome.forwarded (some Role.READ_WRITE) := by
  have hne : t ≠ "" := mem_init_rw_keys_ne_empty hmem
  have hnil : (APIKeyMiddleware.init ro_str rw_str legacy_env).rw_keys ≠ [] := by
    intro h
    rw [h] at hmem
    exact List.not_mem_nil t hmem
  unfold APIKeyMiddleware.call
  rw [if_neg (fun h => h.elim hp hm), if_neg (fun h => hnil h.2), hauth,
    extractToken_bearer]
  unfold resolveRole
  rw [if_pos hne, if_pos hmem]

theorem c2_witness :
    (APIKeyMiddleware.init "ro1,shared" "rw1,shared" "").call
      ⟨"/mcp", "POST", [("authorization", "Bearer shared")]⟩
      = AuthOutcome.forwarded (some Role.READ_WRITE) :=
  c2_rw_token_resolves_read_write "ro1,shared" "rw1,shared" "" _ "shared"
    (by decide) (by decide) (by decide) (by decide)

/-- C3: when both parsed credential lists are empty, every request to an
authenticated path — whatever its `Authorization` header holds — is
forwarded with role `READ_WRITE`, and no request at all is rejected with
the 401 response. -/
theorem c3_open_access_default (m : APIKeyMiddleware) (req : HttpRequest)
    (hro : m.ro_keys = []) (hrw : m.rw_keys = []) :
    (req.path ≠ "/health" → req.method ≠ "OPTIONS" →
      m.call req = AuthOutcome.forwarded (some Role.READ_WRITE)) ∧
    ∀ e, m.call req ≠ AuthOutcome.rejected e := by
  unfold APIKeyMiddleware.call
  constructor
  · intro hp hm
    rw [if_neg (fun h => h.elim hp hm), if_pos ⟨hro, hrw⟩]
  · intro e
    by_cases hb : req.path = "/health" ∨ req.method = "OPTIONS"
    · rw [if_pos hb]
      exact fun h => AuthOutcome.noConfusion h
    · rw [if_neg hb, if_pos ⟨hro, hrw⟩]
      exact fun h => AuthOutcome.noConfusion h

theorem c3_witness :
    (APIKeyMiddleware.init "" "" "").call
      ⟨"/mcp", "POST", [("authorization", "Bearer whatever")]⟩
      = AuthOutcome.forwarded (some Role.READ_WRITE) :=
  (c3_open_access_default (APIKeyMiddleware.init "" "" "")
    ⟨"/mcp", "POST", [("authorization", "Bearer whatever")]⟩
    (by decide) (by decide)).1 (by decide) (by decide)

/-- C4 as stated is false: the health-check path bypasses authentication,
so a request with a missing credential while a read-write set is
configured is forwarded to the inner application rather than rejected. -/
theorem c4_counterexample :
    (APIKeyMiddleware.init "" "secret" "").rw_keys ≠ [] ∧
    (APIKeyMiddleware.init "" "secret" "").call ⟨"/health", "GET", []⟩
      = AuthOutcome.forwarded none := by
  exact ⟨by decide, by decide⟩

/-- C4 (amended): when at least one credential list is non-empty, every
request that is not exempt from authentication (path not `/health`,
method not `OPTIONS`) whose credential is missing or malformed (extracted
token empty) or not a member of either list is rejected with the
structured 401 payload, and the inner application is never invoked for
it. -/
theorem c4_amended_reject_unauthorized (m : APIKeyMiddleware)
    (req : HttpRequest) (hconf : ¬(m.ro_keys = [] ∧ m.rw_keys = []))
    (hp : req.path ≠ "/health") (hm : req.method ≠ "OPTIONS")
    (htok : extractToken (headerLookup req.headers "authorization") = "" ∨
      (extractToken (headerLookup req.headers "authorization") ∉ m.ro_keys ∧
       extractToken (headerLookup req.headers "authorization") ∉ m.rw_keys)) :
    m.call req = AuthOutcome.rejected unauthorizedResponse ∧
    ∀ inner : HttpRequest → HttpResponse,
      gateway m inner req = GatewayResult.unauthorized unauthorizedResponse := by
  have hres :
      resolveRole m (extractToken (headerLookup req.headers "authorization"))
        = none := by
    unfold resolveRole
    rcases htok with h | ⟨hro, hrw⟩
    · rw [if_neg (fun hne => hne h)]
    · by_cases hne : extractToken (headerLookup req.headers "authorization") ≠ ""
      · rw [if_pos hne, if_neg hrw, if_neg hro]
      · rw [if_neg hne]
  have hcall : m.call req = AuthOutcome.rejected unauthorizedResponse := by
    unfold APIKeyMiddleware.call
    rw [if_neg (fun h => h.elim hp hm), if_neg hconf, hres]
  refine ⟨hcall, fun inner => ?_⟩
  unfold gateway
  rw [hcall]

theorem c4_witness :
    (APIKeyMiddleware.init "" "secret" "").call
      ⟨"/mcp", "POST", [("authorization", "Basic abc")]⟩
      = AuthOutcome.rejected unauthorizedResponse :=
  (c4_amended_reject_unauthorized (APIKeyMiddleware.init "" "secret" "")
    ⟨"/mcp", "POST", [("authorization", "Basic abc")]⟩
    (by decide) (by decide) (by decide) (Or.inl (by decide))).1

/-- C8: requests whose path is the health-check path and requests whose
method is `OPTIONS` bypass authentication entirely and are forwarded to
the inner application, for every credential configuration and whatever
the `Authorization` header holds. -/
theorem c8_bypass (m : APIKeyMiddleware) (req : HttpRequest)
    (h : req.path = "/health" ∨ req.method = "OPTIONS") :
    m.call req = AuthOutcome.forwarded none := by
  unfold APIKeyMiddleware.call
  rw [if_pos h]

theorem c8_witness :
    (APIKeyMiddleware.init "ro" "rw" "").call
      ⟨"/mcp", "OPTIONS", [("authorization", "garbage")]⟩
      = AuthOutcome.forwarded none :=
  c8_bypass (APIKeyMiddleware.init "ro" "rw" "")
    ⟨"/mcp", "OPTIONS", [("authorization", "garbage")]⟩ (Or.inr (by decide))

/-- C6 as stated is false: the injection is not idempotent. Applying
`send_wrapper`'s header rewrite twice to an event-stream response yields
two copies of `cache-control` (and of each of the other four headers) —
the code appends unconditionally, with no already-present check. -/
theorem c6_counterexample :
    countName (noBufferingStart [("content-type", "text/event-stream")])
      "cache-control" = 1 ∧
    countName (noBufferingStart (noBufferingStart
      [("content-type", "text/event-stream")])) "cache-control" = 2 := by
  exact ⟨by decide, by decide⟩

/-- C6 (amended): one application of the header rewrite to a response
declaring an event-stream content type appends each of the five
anti-buffering headers exactly once (each name gains exactly one
occurrence; a second application therefore duplicates them), and a
response whose content type is not an event-stream passes through with
its headers unchanged. -/
theorem c6_amended_headers (h : List (String × String)) :
    (isSSE h = false → noBufferingStart h = h) ∧
    (isSSE h = true → ∀ n ∈ nbHeaderNames,
      countName (noBufferingStart h) n = countName h n + 1) := by
  constructor
  · intro hf
    simp [noBufferingStart, hf]
  · intro ht n hn
    simp only [noBufferingStart, ht, if_true]
    unfold countName
    rw [List.filter_append, List.length_append]
    have h1 : (nbHeaders.filter (fun p => p.1 = n)).length = 1 := by
      simp only [nbHeaderNames, List.mem_cons, List.not_mem_nil, or_false] at hn
      rcases hn with rfl | rfl | rfl | rfl | rfl <;> decide
    rw [h1]

theorem c6_witness :
    countName (noBufferingStart
      [("content-type", "text/event-stream; charset=utf-8")])
      "x-accel-buffering"
      = countName [("content-type", "text/event-stream; charset=utf-8")]
          "x-accel-buffering" + 1 :=
  (c6_amended_headers [("content-type", "text/event-stream; charset=utf-8")]).2
    (by decide) "x-accel-buffering" (by decide)

/-- C7 as stated is false: parsing does not remove duplicates. The value
`"a,a"` parses to the list `["a", "a"]`, in which the token appears
twice, not once. -/
theorem c7_counterexample :
    parseKeys "a,a" = ["a", "a"] ∧ (parseKeys "a,a").count "a" ≠ 1 := by
  exact ⟨by decide, by decide⟩

/-- C7 (amended): a configured credential string is parsed by splitting on
commas, trimming surrounding whitespace from each entry and dropping
empty entries, yielding an ordered list in which duplicates are retained
(membership queries are unaffected); in particular `"  a@b ,  ,c@d"`
parses to `["a@b", "c@d"]`, a duplicated token appears as often as it is
written, and every parsed entry is non-empty. -/
theorem c7_amended_parse :
    parseKeys "  a@b ,  ,c@d" = ["a@b", "c@d"] ∧
    parseKeys "tok, tok" = ["tok", "tok"] ∧
    ∀ s k, k ∈ parseKeys s → k ≠ "" := by
  exact ⟨by decide, by decide, fun s k h => mem_parseKeys_ne_empty h⟩

theorem c7_witness : ("a@b" : String) ≠ "" :=
  c7_amended_parse.2.2 "  a@b ,  ,c@d" "a@b" (by decide)

/-- C9 as stated is false: the `/health` route is declared without a
`methods` list, so the router only accepts `GET` (and `HEAD`); a `POST`
to the health-check endpoint gets a 405, not a success echoing the
path. -/
theorem c9_counterexample :
    gateway (APIKeyMiddleware.init "" "" "")
      (fun _ => (⟨404, "not found"⟩ : HttpResponse)) ⟨"/health", "POST", []⟩
      = GatewayResult.response ⟨405, "Method Not Allowed"⟩ := by decide

/-- C9 (amended): a `GET` request to the health-check endpoint, with any
headers (in particular unauthenticated) and under every credential
configuration, returns a 200 response whose body echoes the requested
path; methods other than `GET`/`HEAD` are answered 405 by the router. -/
theorem c9_amended_health_get (m : APIKeyMiddleware)
    (inner : HttpRequest → HttpResponse) (headers : List (String × String)) :
    gateway m inner ⟨"/health", "GET", headers⟩
      = GatewayResult.response ⟨200, "OK. Path: /health"⟩ := by
  have hcall : m.call ⟨"/health", "GET", headers⟩ = AuthOutcome.forwarded none := by
    unfold APIKeyMiddleware.call
    rw [if_pos (Or.inl rfl)]
  unfold gateway
  rw [hcall]
  unfold routerDispatch
  rw [if_pos rfl, if_pos (show ("GET" : String) ∈ healthRouteMethods by decide)]
  rfl

/-- C1: the write guard is NOT placed at the entry of
`add_attachment_to_card`, `delete_attachment_from_card` and
`update_card_custom_field_value`. Invoked under a `READ_ONLY` role
binding, each of these mutating handlers executes its body and issues its
remote-API call, returning success instead of failing with
`PermissionDenied` — while a guarded card mutation (`create_card`) under
the same role fails at entry with `PermissionDenied` naming the operation
and the actual role, issuing no remote call. -/
theorem c1_unguarded_mutations_execute :
    add_attachment_to_card (some Role.READ_ONLY) (fun _ => "resp") "c1"
      "http://x" none
      = (Except.ok "resp",
         [⟨"POST", "/cards/c1/attachments",
           some (PyVal.dict [("url", PyVal.str "http://x")]), []⟩]) ∧
    delete_attachment_from_card (some Role.READ_ONLY) (fun _ => "resp") "c1" "a1"
      = (Except.ok true, [⟨"DELETE", "/cards/c1/attachments/a1", none, []⟩]) ∧
    update_card_custom_field_value (some Role.READ_ONLY) (fun _ => "resp")
      "c1" "f1" [("text", PyVal.str "hi")]
      = (Except.ok "resp",
         [⟨"PUT", "/cards/c1/customField/f1/item",
           some (PyVal.dict [("value", PyVal.dict [("text", PyVal.str "hi")])]),
           []⟩]) ∧
    create_card (some Role.READ_ONLY) (fun _ => "resp")
      [("idList", PyVal.str "l1")]
      = (Except.error (ToolError.PermissionDenied "create_card" "read_only"),
         []) ∧
    create_card none (fun _ => "resp") [("idList", PyVal.str "l1")]
      = (Except.error (ToolError.PermissionDenied "create_card" "no"), []) := by
  exact ⟨rfl, rfl, rfl, rfl, rfl⟩

/-- C10: the read tool handlers never consult the request's role binding:
with identical arguments and an identical remote oracle, their results
(value and call trace alike) are the same under `READ_ONLY`,
`READ_WRITE`, or no role binding at all. -/
theorem c10_read_tools_ignore_role (r₁ r₂ : Option Role) (remote : Remote)
    (a : String) :
    get_card r₁ remote a = get_card r₂ remote a ∧
    get_cards r₁ remote a = get_cards r₂ remote a ∧
    get_board r₁ remote a = get_board r₂ remote a ∧
    get_boards r₁ remote a = get_boards r₂ remote a ∧
    get_board_labels r₁ remote a = get_board_labels r₂ remote a ∧
    get_board_members r₁ remote a = get_board_members r₂ remote a ∧
    get_card_comments r₁ remote a = get_card_comments r₂ remote a ∧
    get_card_attachments r₁ remote a = get_card_attachments r₂ remote a ∧
    get_board_custom_field_definitions r₁ remote a
      = get_board_custom_field_definitions r₂ remote a ∧
    get_card_custom_field_items r₁ remote a
      = get_card_custom_field_items r₂ remote a :=
  ⟨rfl, rfl, rfl, rfl, rfl, rfl, rfl, rfl, rfl, rfl⟩

end Trello
